import Mathlib

/-!
Verification of the protocol adaptation layer of `datenlord-s3-server`
(files `src/output.rs` and `src/utils/request.rs`).

The embedding translates the Rust source shallowly:
* `S3Result<T, E> = Result<T, S3Error<E>>` becomes `Except (S3Error E) T`;
* the HTTP `Response` becomes a record of status, header list and body string;
* the XML writer helpers (`XmlWriterExt`), the `Response` extension helpers,
  the DTO types, the error-code table and the timestamp converter are repo
  code outside the given sources, so they are modelled from the spec
  (each such definition carries a doc comment saying so);
* fallible Rust code returns `Except`.
-/

namespace S3

/-- `BoxStdError`: an opaque boxed error, modelled as a string payload. -/
abbrev BoxStdError := String

/-- The transport-error sum type `S3Error<E>` from the error module
(declared outside `src/`, shape fixed by its uses in `src/output.rs`):
variants `InvalidRequest`, `InvalidOutput`, `Storage`, `NotSupported`
and `Operation` wrapping the operation-specific business error. -/
inductive S3Error (E : Type) : Type where
  | InvalidRequest (e : BoxStdError)
  | InvalidOutput (e : BoxStdError)
  | Storage (e : BoxStdError)
  | NotSupported
  | Operation (e : E)
deriving DecidableEq

/-- `S3Result<T, E>` from the source: `Result<T, S3Error<E>>`. -/
abbrev S3Result (T : Type) (E : Type := Empty) := Except (S3Error E) T

/-- Modelled from the spec: the in-progress HTTP response — status line,
headers set incrementally, and the body buffer. -/
structure Response : Type where
  status : Nat
  headers : List (String × String)
  body : String
deriving DecidableEq

/-- `Response::new(body)`: a response with default status 200 OK. -/
def Response.new (body : String) : Response :=
  { status := 200, headers := [], body := body }

/-- `Response::new_with_status(body, status)`. -/
def Response.new_with_status (body : String) (status : Nat) : Response :=
  { status := status, headers := [], body := body }

/-- Modelled from the spec: whether a string is legal as an HTTP header
value ("a value containing characters illegal in a header" fails);
legal characters are the visible ASCII range plus space. -/
def validHeaderValue (s : String) : Bool :=
  s.data.all fun c => 32 ≤ c.toNat && c.toNat ≤ 126

/-- Modelled from the spec: `ResponseExt::set_header`-style primitive —
appends the header if the value is legal, otherwise fails (the failure is
later converted to invalid-output by `wrap_output`). -/
def Response.set_header (res : Response) (name value : String) :
    Except BoxStdError Response :=
  if validHeaderValue value then
    Except.ok { res with headers := res.headers ++ [(name, value)] }
  else
    Except.error ("invalid header value: " ++ value)

/-- Modelled from the spec: `ResponseExt::set_opt_header` — sets the header
only when the optional value is present, otherwise leaves the response
unchanged and succeeds. -/
def Response.set_opt_header (res : Response) (name : String)
    (value : Option String) : Except BoxStdError Response :=
  match value with
  | none => Except.ok res
  | some v => res.set_header name v

/-- Modelled from the spec: `ResponseExt::set_opt_last_modified` — sets the
`Last-Modified` header when the (already wire-formatted) value is present. -/
def Response.set_opt_last_modified (res : Response)
    (value : Option String) : Except BoxStdError Response :=
  res.set_opt_header "last-modified" value

/-- Modelled from the spec: `ResponseExt::set_mime` — sets the
`Content-Type` header from a mime constant; `mime::TEXT_XML` is
`text/xml`. -/
def Response.set_mime (res : Response) (m : String) :
    Except BoxStdError Response :=
  res.set_header "content-type" m

/-- Modelled from the spec: the timestamp converter maps a stored
RFC3339-like timestamp into the wire `Last-Modified` format or fails if
malformed.  The conversion itself is an external collaborator, so it is a
parameter `conv`; `time::map_opt_rfc3339_to_last_modified` lifts it over an
optional value. -/
def map_opt_rfc3339_to_last_modified (conv : String → Except BoxStdError String)
    (t : Option String) : Except BoxStdError (Option String) :=
  match t with
  | none => Except.ok none
  | some s =>
    match conv s with
    | Except.ok v => Except.ok (some v)
    | Except.error e => Except.error e

/-! ## XML tree writer (modelled from the spec, §4.3)

The `XmlWriterExt` helpers live outside `src/`; spec §4.3 fixes their
behaviour.  The writer is modelled as a string builder: each primitive
returns the fragment of XML it emits. -/

/-- Modelled from the spec: `element(name, text)` — always emits an
open/close tag pair with the text content between them. -/
def element (name text : String) : String :=
  "<" ++ name ++ ">" ++ text ++ "</" ++ name ++ ">"

/-- Modelled from the spec: `optional-element(name, optional-text)` — emits
nothing when the value is absent, otherwise the same as `element`. -/
def opt_element (name : String) (text : Option String) : String :=
  match text with
  | none => ""
  | some t => element name t

/-- Modelled from the spec: `stack(name, body)` — an open tag, the nested
content, the close tag. -/
def stack (name body : String) : String :=
  "<" ++ name ++ ">" ++ body ++ "</" ++ name ++ ">"

/-- Modelled from the spec: `optional-stack(name, optional-value, body-fn)`
— the entire subtree is emitted only when the value is present. -/
def opt_stack {α : Type} (name : String) (v : Option α) (body : α → String) :
    String :=
  match v with
  | none => ""
  | some x => stack name (body x)

/-- Modelled from the spec: `iterate-element(items, per-item-fn)` — one
sibling block per item, preserving input order. -/
def iter_element {α : Type} (items : List α) (body : α → String) : String :=
  String.join (items.map body)

/-- Modelled from the spec: the standard XML declaration every body starts
with — version 1.0, encoding UTF-8, no standalone attribute. -/
def xmlDecl : String := "<?xml version=\x221.0\x22 encoding=\x22UTF-8\x22?>"

/-! ## Output conversion helpers (`src/output.rs`) -/

/-- `wrap_output` from `src/output.rs`: runs the builder and converts any
failure into the invalid-output transport error. -/
def wrap_output (f : Except BoxStdError Response) : S3Result Response :=
  match f with
  | Except.ok res => Except.ok res
  | Except.error e => Except.error (S3Error.InvalidOutput e)

/-- `wrap_xml_output` from `src/output.rs`: writes the XML declaration,
then the document fragment `f`, builds the response via the optional
callback `r` (default status 200) and sets the `text/xml` content type.
In the model the XML emission is the pure string `f`; the capacity hint of
the source is a performance hint only and is dropped. -/
def wrap_xml_output (f : String) (r : Option (String → Response)) :
    S3Result Response :=
  wrap_output (do
    let body := xmlDecl ++ f
    let res :=
      match r with
      | none => Response.new body
      | some r => r body
    let res ← res.set_mime "text/xml"
    Except.ok res)

/-- The generic `impl<T, E> S3Output for S3Result<T, E>` from
`src/output.rs` lines 30–47: a two-sided result renders the success branch
via the renderer of the output, unwraps `Operation` to the business-error
renderer, and re-wraps the four transport variants unrendered. -/
def s3ResultTryIntoResponse {T E : Type}
    (renderOutput : T → S3Result Response)
    (renderError : E → S3Result Response)
    (self : S3Result T E) : S3Result Response :=
  match self with
  | Except.ok output => renderOutput output
  | Except.error err =>
    match err with
    | S3Error.Operation e => renderError e
    | S3Error.InvalidRequest e => Except.error (S3Error.InvalidRequest e)
    | S3Error.InvalidOutput e => Except.error (S3Error.InvalidOutput e)
    | S3Error.Storage e => Except.error (S3Error.Storage e)
    | S3Error.NotSupported => Except.error S3Error.NotSupported

/-! ## Error codes and the XML error document -/

/-- Modelled from the spec: the catalog of S3 error codes used by the
business-error renderers in `src/output.rs` (the full table is an external
collaborator).  Extra codes would only add rows to the table. -/
inductive S3ErrorCode : Type where
  | BucketAlreadyExists
  | BucketAlreadyOwnedByYou
  | NoSuchBucket
  | NoSuchKey
deriving DecidableEq

/-- Modelled from the spec: the canonical string name of each error code
(`S3ErrorCode::to_string`). -/
def S3ErrorCode.toCodeString : S3ErrorCode → String
  | .BucketAlreadyExists => "BucketAlreadyExists"
  | .BucketAlreadyOwnedByYou => "BucketAlreadyOwnedByYou"
  | .NoSuchBucket => "NoSuchBucket"
  | .NoSuchKey => "NoSuchKey"

/-- Modelled from the spec: the fixed error-code → HTTP-status table
(`S3ErrorCode::as_status_code`); it may have no entry for a code, hence
the `Option`. -/
def S3ErrorCode.as_status_code : S3ErrorCode → Option Nat
  | .BucketAlreadyExists => some 409
  | .BucketAlreadyOwnedByYou => some 409
  | .NoSuchBucket => some 404
  | .NoSuchKey => some 404

/-- The XML error document record from `src/output.rs` lines 93–103. -/
structure XmlErrorResponse : Type where
  code : S3ErrorCode
  message : Option String
  resource : Option String
  request_id : Option String
deriving DecidableEq

/-- `XmlErrorResponse::from_code_msg` (`src/output.rs` lines 105–115):
builds the document with `resource` and `request_id` set to `None`. -/
def XmlErrorResponse.from_code_msg (code : S3ErrorCode)
    (message : Option String) : XmlErrorResponse :=
  { code := code, message := message, resource := none, request_id := none }

/-- `impl S3Output for XmlErrorResponse` (`src/output.rs` lines 117–140):
renders the `Error` document with children Code, Message, Resource,
RequestId, status from the table with default 500. -/
def XmlErrorResponse.try_into_response (self : XmlErrorResponse) :
    S3Result Response :=
  wrap_xml_output
    (stack "Error"
      (opt_element "Code" (some self.code.toCodeString) ++
       opt_element "Message" self.message ++
       opt_element "Resource" self.resource ++
       opt_element "RequestId" self.request_id))
    (some fun body =>
      Response.new_with_status body
        ((self.code.as_status_code).getD 500))

/-! ## DTO types (modelled from the spec; the `dto` module is outside
`src/`).  Only the fields `src/output.rs` reads are modelled; each
business-error variant carries an optional human-readable message
(spec §3). -/

/-- Modelled from the spec: `CreateBucketOutput` with its optional
`location`. -/
structure CreateBucketOutput : Type where
  location : Option String

/-- Modelled from the spec: `CreateBucketError`. -/
inductive CreateBucketError : Type where
  | BucketAlreadyExists (msg : Option String)
  | BucketAlreadyOwnedByYou (msg : Option String)

/-- Modelled from the spec: `DeleteBucketOutput` (no fields read). -/
structure DeleteBucketOutput : Type where

/-- Modelled from the spec: `DeleteBucketError` — zero variants. -/
inductive DeleteBucketError : Type where

/-- Modelled from the spec: `DeleteObjectOutput` (no fields read). -/
structure DeleteObjectOutput : Type where

/-- Modelled from the spec: `DeleteObjectError` — zero variants. -/
inductive DeleteObjectError : Type where

/-- Modelled from the spec: `GetObjectOutput`; the body stream is modelled
as the byte string it yields. -/
structure GetObjectOutput : Type where
  body : Option String
  content_length : Option Int
  content_type : Option String
  last_modified : Option String

/-- Modelled from the spec: `GetObjectError`. -/
inductive GetObjectError : Type where
  | NoSuchKey (msg : Option String)

/-- Modelled from the spec: `GetBucketLocationOutput`. -/
structure GetBucketLocationOutput : Type where
  location_constraint : Option String

/-- Modelled from the spec: `GetBucketLocationError` — zero variants. -/
inductive GetBucketLocationError : Type where

/-- Modelled from the spec: `HeadBucketOutput` (no fields read). -/
structure HeadBucketOutput : Type where

/-- Modelled from the spec: `HeadBucketError`. -/
inductive HeadBucketError : Type where
  | NoSuchBucket (msg : Option String)

/-- Modelled from the spec: `HeadObjectOutput`. -/
structure HeadObjectOutput : Type where
  content_type : Option String
  content_length : Option Int
  last_modified : Option String
  e_tag : Option String
  expires : Option String

/-- Modelled from the spec: `HeadObjectError`. -/
inductive HeadObjectError : Type where
  | NoSuchKey (msg : Option String)

/-- Modelled from the spec: the `Bucket` record of `ListBucketsOutput`. -/
structure Bucket : Type where
  creation_date : Option String
  name : Option String

/-- Modelled from the spec: the `Owner` record. -/
structure Owner : Type where
  display_name : Option String
  id : Option String

/-- Modelled from the spec: `ListBucketsOutput`. -/
structure ListBucketsOutput : Type where
  buckets : Option (List Bucket)
  owner : Option Owner

/-- Modelled from the spec: `ListBucketsError` — zero variants. -/
inductive ListBucketsError : Type where

/-- Modelled from the spec: the `Object` record of `ListObjectsOutput`
(`Contents` entries). -/
structure ObjectContents : Type where
  key : Option String
  last_modified : Option String
  e_tag : Option String
  size : Option Int
  storage_class : Option String
  owner : Option Owner

/-- Modelled from the spec: a `CommonPrefix` record; the source field is
named `prefix`, here `pfx` since `prefix` is a Lean keyword. -/
structure CommonPrefix : Type where
  pfx : Option String

/-- Modelled from the spec: `ListObjectsOutput`. -/
structure ListObjectsOutput : Type where
  is_truncated : Option Bool
  marker : Option String
  next_marker : Option String
  contents : Option (List ObjectContents)
  name : Option String
  pfx : Option String
  delimiter : Option String
  max_keys : Option Int
  common_prefixes : Option (List CommonPrefix)
  encoding_type : Option String

/-- Modelled from the spec: `ListObjectsError`. -/
inductive ListObjectsError : Type where
  | NoSuchBucket (msg : Option String)

/-- Modelled from the spec: `PutObjectOutput` (no fields read). -/
structure PutObjectOutput : Type where

/-- Modelled from the spec: `PutObjectError` — zero variants. -/
inductive PutObjectError : Type where

/-! ## Per-operation renderers (`src/output.rs`, modules
`create_bucket` … `put_object`) -/

/-- `impl S3Output for CreateBucketOutput` (`src/output.rs` 148–156):
empty body, opportunistic `Location` header. -/
def CreateBucketOutput.try_into_response (self : CreateBucketOutput) :
    S3Result Response :=
  wrap_output (do
    let res := Response.new ""
    let res ← res.set_opt_header "location" self.location
    Except.ok res)

/-- `impl S3Output for CreateBucketError` (`src/output.rs` 158–171). -/
def CreateBucketError.try_into_response (self : CreateBucketError) :
    S3Result Response :=
  (match self with
   | CreateBucketError.BucketAlreadyExists msg =>
     XmlErrorResponse.from_code_msg S3ErrorCode.BucketAlreadyExists msg
   | CreateBucketError.BucketAlreadyOwnedByYou msg =>
     XmlErrorResponse.from_code_msg S3ErrorCode.BucketAlreadyOwnedByYou msg
  ).try_into_response

/-- `impl S3Output for DeleteBucketOutput` (`src/output.rs` 181–185):
empty body with status 204 No Content. -/
def DeleteBucketOutput.try_into_response (_self : DeleteBucketOutput) :
    S3Result Response :=
  Except.ok (Response.new_with_status "" 204)

/-- `impl S3Output for DeleteBucketError` (`src/output.rs` 187–191):
`match self {}` on the zero-variant type. -/
def DeleteBucketError.try_into_response (self : DeleteBucketError) :
    S3Result Response :=
  nomatch self

/-- `impl S3Output for DeleteObjectOutput` (`src/output.rs` 200–206):
empty body, default status. -/
def DeleteObjectOutput.try_into_response (_self : DeleteObjectOutput) :
    S3Result Response :=
  Except.ok (Response.new "")

/-- `impl S3Output for DeleteObjectError` (`src/output.rs` 208–212). -/
def DeleteObjectError.try_into_response (self : DeleteObjectError) :
    S3Result Response :=
  nomatch self

/-- `impl S3Output for GetObjectOutput` (`src/output.rs` 221–241): body
stream passed through, opportunistic `Content-Length`, `Content-Type`,
`Last-Modified` (converted from the stored timestamp by `conv`). -/
def GetObjectOutput.try_into_response
    (conv : String → Except BoxStdError String) (self : GetObjectOutput) :
    S3Result Response :=
  wrap_output (do
    let res := Response.new ""
    let res :=
      match self.body with
      | none => res
      | some b => { res with body := b }
    let res ← res.set_opt_header "content-length"
      (self.content_length.map fun l => toString l)
    let res ← res.set_opt_header "content-type" self.content_type
    let lm ← map_opt_rfc3339_to_last_modified conv self.last_modified
    let res ← res.set_opt_last_modified lm
    Except.ok res)

/-- `impl S3Output for GetObjectError` (`src/output.rs` 243–252). -/
def GetObjectError.try_into_response (self : GetObjectError) :
    S3Result Response :=
  (match self with
   | GetObjectError.NoSuchKey msg =>
     XmlErrorResponse.from_code_msg S3ErrorCode.NoSuchKey msg
  ).try_into_response

/-- `impl S3Output for GetBucketLocationOutput` (`src/output.rs`
261–274): a bare `LocationConstraint` element, empty string when the
constraint is unset. -/
def GetBucketLocationOutput.try_into_response
    (self : GetBucketLocationOutput) : S3Result Response :=
  wrap_xml_output
    (element "LocationConstraint" (self.location_constraint.getD ""))
    none

/-- `impl S3Output for GetBucketLocationError` (`src/output.rs`
276–280). -/
def GetBucketLocationError.try_into_response (self : GetBucketLocationError) :
    S3Result Response :=
  nomatch self

/-- `impl S3Output for HeadBucketOutput` (`src/output.rs` 289–293):
empty body, default status. -/
def HeadBucketOutput.try_into_response (_self : HeadBucketOutput) :
    S3Result Response :=
  Except.ok (Response.new "")

/-- `impl S3Output for HeadBucketError` (`src/output.rs` 295–304). -/
def HeadBucketError.try_into_response (self : HeadBucketError) :
    S3Result Response :=
  (match self with
   | HeadBucketError.NoSuchBucket msg =>
     XmlErrorResponse.from_code_msg S3ErrorCode.NoSuchBucket msg
  ).try_into_response

/-- `impl S3Output for HeadObjectOutput` (`src/output.rs` 313–331):
opportunistic `Content-Type`, `Content-Length`, `Last-Modified`, `ETag`,
`Expires` headers. -/
def HeadObjectOutput.try_into_response
    (conv : String → Except BoxStdError String) (self : HeadObjectOutput) :
    S3Result Response :=
  wrap_output (do
    let res := Response.new ""
    let res ← res.set_opt_header "content-type" self.content_type
    let res ← res.set_opt_header "content-length"
      (self.content_length.map fun l => toString l)
    let lm ← map_opt_rfc3339_to_last_modified conv self.last_modified
    let res ← res.set_opt_last_modified lm
    let res ← res.set_opt_header "etag" self.e_tag
    let res ← res.set_opt_header "expires" self.expires
    Except.ok res)

/-- `impl S3Output for HeadObjectError` (`src/output.rs` 333–343). -/
def HeadObjectError.try_into_response (self : HeadObjectError) :
    S3Result Response :=
  (match self with
   | HeadObjectError.NoSuchKey msg =>
     XmlErrorResponse.from_code_msg S3ErrorCode.NoSuchKey msg
  ).try_into_response

/-- `impl S3Output for ListBucketsOutput` (`src/output.rs` 351–377):
a `ListBucketsOutput` root with optional `Buckets` and `Owner` stacks. -/
def ListBucketsOutput.try_into_response (self : ListBucketsOutput) :
    S3Result Response :=
  wrap_xml_output
    (stack "ListBucketsOutput"
      (opt_stack "Buckets" self.buckets (fun buckets =>
        iter_element buckets fun bucket =>
          stack "Bucket"
            (opt_element "CreationDate" bucket.creation_date ++
             opt_element "Name" bucket.name)) ++
       opt_stack "Owner" self.owner fun owner =>
         opt_element "DisplayName" owner.display_name ++
         opt_element "ID" owner.id))
    none

/-- `impl S3Output for ListBucketsError` (`src/output.rs` 379–383). -/
def ListBucketsError.try_into_response (self : ListBucketsError) :
    S3Result Response :=
  nomatch self

/-- `impl S3Output for ListObjectsOutput` (`src/output.rs` 403–459):
the `ListBucketResult` document. -/
def ListObjectsOutput.try_into_response (self : ListObjectsOutput) :
    S3Result Response :=
  wrap_xml_output
    (stack "ListBucketResult"
      (opt_element "IsTruncated" (self.is_truncated.map fun b => toString b) ++
       opt_element "Marker" self.marker ++
       opt_element "NextMarker" self.next_marker ++
       (match self.contents with
        | none => ""
        | some contents =>
          iter_element contents fun content =>
            stack "Contents"
              (opt_element "Key" content.key ++
               opt_element "LastModified" content.last_modified ++
               opt_element "ETag" content.e_tag ++
               opt_element "Size" (content.size.map fun s => toString s) ++
               opt_element "StorageClass" content.storage_class ++
               opt_stack "Owner" content.owner fun owner =>
                 opt_element "ID" owner.id ++
                 opt_element "DisplayName" owner.display_name)) ++
       opt_element "Name" self.name ++
       opt_element "Prefix" self.pfx ++
       opt_element "Delimiter" self.delimiter ++
       opt_element "MaxKeys" (self.max_keys.map fun k => toString k) ++
       opt_stack "CommonPrefixes" self.common_prefixes (fun prefixes =>
         iter_element prefixes fun common_prefix =>
           opt_element "Prefix" common_prefix.pfx) ++
       opt_element "EncodingType" self.encoding_type))
    none

/-- `impl S3Output for ListObjectsError` (`src/output.rs` 392–401). -/
def ListObjectsError.try_into_response (self : ListObjectsError) :
    S3Result Response :=
  (match self with
   | ListObjectsError.NoSuchBucket msg =>
     XmlErrorResponse.from_code_msg S3ErrorCode.NoSuchBucket msg
  ).try_into_response

/-- `impl S3Output for PutObjectOutput` (`src/output.rs` 468–474):
empty body, default status. -/
def PutObjectOutput.try_into_response (_self : PutObjectOutput) :
    S3Result Response :=
  Except.ok (Response.new "")

/-- `impl S3Output for PutObjectError` (`src/output.rs` 476–480). -/
def PutObjectError.try_into_response (self : PutObjectError) :
    S3Result Response :=
  nomatch self

/-! ## Request extraction utilities (`src/utils/request.rs`) -/

/-- Modelled from the external `hyper` crate: a raw header value is a byte
sequence. -/
abbrev HeaderValue := List Nat

/-- Modelled from the external `hyper` crate: the error returned when a
header value cannot be read as text; it carries no data. -/
structure ToStrError : Type where
deriving DecidableEq

/-- Modelled from the external `hyper` crate: `HeaderValue::to_str`
succeeds only when every byte is visible ASCII or space. -/
def HeaderValue.to_str (v : HeaderValue) : Except ToStrError String :=
  if v.all (fun b => 32 ≤ b && b ≤ 126) then
    Except.ok (String.mk (v.map fun b => Char.ofNat b))
  else
    Except.error {}

/-- Modelled from the spec: the inbound HTTP request, reduced to the parts
the extraction utilities under test read — its header map. -/
structure Request : Type where
  headers : List (String × HeaderValue)

/-- `RequestExt::get_header_str` (`src/utils/request.rs` 37–42):
`headers().get(name).map(to_str).transpose()`. -/
def Request.get_header_str (req : Request) (name : String) :
    Except ToStrError (Option String) :=
  match req.headers.find? (fun p => p.1 == name) with
  | none => Except.ok none
  | some p =>
    match p.2.to_str with
    | Except.ok s => Except.ok (some s)
    | Except.error e => Except.error e

/-- `RequestExt::assign_opt_header` (`src/utils/request.rs` 59–75).
`T: FromStr` is modelled by passing the parse function explicitly; the
`&mut Option<T>` target is modelled by returning the updated option
alongside the double result (the source returns `&Self` in the success
channel, modelled by `Unit`). -/
def Request.assign_opt_header {T ε : Type} (req : Request)
    (parse : String → Except ε T) (name : String) (opt : Option T) :
    Except ToStrError (Except ε Unit) × Option T :=
  match req.get_header_str name with
  | Except.error e => (Except.error e, opt)
  | Except.ok none => (Except.ok (Except.ok ()), opt)
  | Except.ok (some s) =>
    match parse s with
    | Except.ok v => (Except.ok (Except.ok ()), some v)
    | Except.error e => (Except.ok (Except.error e), opt)

instance {ε α : Type} [DecidableEq ε] [DecidableEq α] :
    DecidableEq (Except ε α) := fun x y =>
  match x, y with
  | Except.ok a, Except.ok b =>
    if h : a = b then Decidable.isTrue (by rw [h])
    else Decidable.isFalse (fun hc => h (Except.ok.inj hc))
  | Except.error a, Except.error b =>
    if h : a = b then Decidable.isTrue (by rw [h])
    else Decidable.isFalse (fun hc => h (Except.error.inj hc))
  | Except.ok _, Except.error _ =>
    Decidable.isFalse (fun hc => Except.noConfusion hc)
  | Except.error _, Except.ok _ =>
    Decidable.isFalse (fun hc => Except.noConfusion hc)

/-! ## Derived predicates used to state the invariants -/

/-- All header values of a response are legal header values. -/
def headersValid (r : Response) : Bool :=
  r.headers.all fun h => validHeaderValue h.2

/-- A builder result is safe: on success every header value set on the
response is legal; failures are allowed (they are classified by
`wrap_output`). -/
def okSafe (x : Except BoxStdError Response) : Prop :=
  match x with
  | Except.ok r => headersValid r = true
  | Except.error _ => True

/-- A rendering result is safe: on success every header value is legal; a
failure is only ever the invalid-output transport variant. -/
def rendersSafely (x : S3Result Response) : Prop :=
  match x with
  | Except.ok r => headersValid r = true
  | Except.error (S3Error.InvalidOutput _) => True
  | Except.error _ => False

/-- A successful response is an XML response: its body starts with the
standard XML declaration and it carries the `text/xml` content type. -/
def isXmlResponse (x : S3Result Response) : Bool :=
  match x with
  | Except.ok r =>
    xmlDecl.data.isPrefixOf r.body.data &&
      r.headers.contains ("content-type", "text/xml")
  | Except.error _ => false

/-! ## Helper lemmas -/

theorem validHeaderValue_text_xml : validHeaderValue "text/xml" = true := by
  decide

theorem set_mime_text_xml (res : Response) :
    res.set_mime "text/xml" =
      Except.ok { res with headers := res.headers ++ [("content-type", "text/xml")] } := by
  simp [Response.set_mime, Response.set_header, validHeaderValue_text_xml]

theorem wrap_xml_output_none (f : String) :
    wrap_xml_output f none =
      Except.ok
        { status := 200,
          headers := [("content-type", "text/xml")],
          body := xmlDecl ++ f } := by
  simp only [wrap_xml_output, Response.new, set_mime_text_xml]
  rfl

theorem wrap_xml_output_with_status (f : String) (st : Nat) :
    wrap_xml_output f (some fun body => Response.new_with_status body st) =
      Except.ok
        { status := st,
          headers := [("content-type", "text/xml")],
          body := xmlDecl ++ f } := by
  simp only [wrap_xml_output, Response.new_with_status, set_mime_text_xml]
  rfl

theorem isPrefixOf_append (l t : List Char) : l.isPrefixOf (l ++ t) = true := by
  induction l with
  | nil => simp [List.isPrefixOf]
  | cons a as ih => simp [List.isPrefixOf, ih]

theorem set_header_okSafe (res : Response) (name v : String)
    (h : headersValid res = true) : okSafe (res.set_header name v) := by
  simp only [Response.set_header]
  by_cases hv : validHeaderValue v = true
  · simp only [hv, if_true, okSafe, headersValid, List.all_append,
      List.all_cons, List.all_nil, Bool.and_eq_true, Bool.and_true]
    simpa [headersValid] using h
  · simp [Bool.not_eq_true] at hv
    simp [hv, okSafe]

theorem set_opt_header_okSafe (res : Response) (name : String)
    (v : Option String) (h : headersValid res = true) :
    okSafe (res.set_opt_header name v) := by
  cases v with
  | none => simpa [Response.set_opt_header, okSafe] using h
  | some s => exact set_header_okSafe res name s h

theorem okSafe_bind_resp (x : Except BoxStdError Response)
    (f : Response → Except BoxStdError Response) (hx : okSafe x)
    (hf : ∀ r, headersValid r = true → okSafe (f r)) : okSafe (x >>= f) := by
  cases x with
  | error e => simp [okSafe, Bind.bind, Except.bind]
  | ok r => simpa [Bind.bind, Except.bind] using hf r hx

theorem okSafe_bind_any {α : Type} (x : Except BoxStdError α)
    (f : α → Except BoxStdError Response) (hf : ∀ a, okSafe (f a)) :
    okSafe (x >>= f) := by
  cases x with
  | error e => simp [okSafe, Bind.bind, Except.bind]
  | ok a => simpa [Bind.bind, Except.bind] using hf a

theorem wrap_output_safe (f : Except BoxStdError Response) (h : okSafe f) :
    rendersSafely (wrap_output f) := by
  cases f with
  | error e => simp [wrap_output, rendersSafely]
  | ok r => simpa [wrap_output, rendersSafely] using h

theorem wrap_xml_output_safe (f : String) (st : Nat) :
    rendersSafely (wrap_xml_output f none) ∧
    rendersSafely
      (wrap_xml_output f (some fun body => Response.new_with_status body st)) := by
  rw [wrap_xml_output_none, wrap_xml_output_with_status]
  constructor <;> · simp [rendersSafely, headersValid, validHeaderValue_text_xml]

theorem isXmlResponse_wrap (f : String) (st : Nat) :
    isXmlResponse (wrap_xml_output f none) = true ∧
    isXmlResponse
      (wrap_xml_output f (some fun body => Response.new_with_status body st)) =
      true := by
  rw [wrap_xml_output_none, wrap_xml_output_with_status]
  constructor <;>
    · simp [isXmlResponse, String.data_append, isPrefixOf_append]

/-! ## Theorems -/

/-- C1: on a two-sided operation result, `try_into_response` renders an
`Ok` output via the renderer of the output itself, unwraps `Operation` and renders
the business error via its own renderer, and returns each of the four
transport-error variants unchanged as an `Err`, never converted into a
response body. -/
theorem C1_result_dispatch {T E : Type}
    (renderOutput : T → S3Result Response)
    (renderError : E → S3Result Response) :
    (∀ output : T,
      s3ResultTryIntoResponse renderOutput renderError (Except.ok output) =
        renderOutput output) ∧
    (∀ e : E,
      s3ResultTryIntoResponse renderOutput renderError
          (Except.error (S3Error.Operation e)) = renderError e) ∧
    (∀ e : BoxStdError,
      s3ResultTryIntoResponse renderOutput renderError
          (Except.error (S3Error.InvalidRequest e)) =
        Except.error (S3Error.InvalidRequest e)) ∧
    (∀ e : BoxStdError,
      s3ResultTryIntoResponse renderOutput renderError
          (Except.error (S3Error.InvalidOutput e)) =
        Except.error (S3Error.InvalidOutput e)) ∧
    (∀ e : BoxStdError,
      s3ResultTryIntoResponse renderOutput renderError
          (Except.error (S3Error.Storage e)) =
        Except.error (S3Error.Storage e)) ∧
    s3ResultTryIntoResponse renderOutput renderError
        (Except.error S3Error.NotSupported) =
      Except.error S3Error.NotSupported := by
  exact ⟨fun _ => rfl, fun _ => rfl, fun _ => rfl, fun _ => rfl,
    fun _ => rfl, rfl⟩

/-- C2: rendering the XML error document yields root element `Error` with
children Code, Message, Resource, RequestId in that order, each optional
child omitted entirely when absent; the Code text is the canonical string
of the code and the status is the table entry of the code with default 500.  In
particular each business-error variant of each operation renders with its
documented code string and table-defined status. -/
theorem C2_error_document_rendering :
    (∀ (code : S3ErrorCode) (message resource request_id : Option String),
      XmlErrorResponse.try_into_response
          { code := code, message := message, resource := resource,
            request_id := request_id } =
        Except.ok
          { status := (code.as_status_code).getD 500,
            headers := [("content-type", "text/xml")],
            body := xmlDecl ++ "<Error>" ++
              "<Code>" ++ code.toCodeString ++ "</Code>" ++
              (match message with
               | none => ""
               | some m => "<Message>" ++ m ++ "</Message>") ++
              (match resource with
               | none => ""
               | some r => "<Resource>" ++ r ++ "</Resource>") ++
              (match request_id with
               | none => ""
               | some i => "<RequestId>" ++ i ++ "</RequestId>") ++
              "</Error>" }) ∧
    (∀ msg : Option String,
      (CreateBucketError.BucketAlreadyExists msg).try_into_response =
        Except.ok
          { status := 409,
            headers := [("content-type", "text/xml")],
            body := xmlDecl ++ "<Error><Code>BucketAlreadyExists</Code>" ++
              (match msg with
               | none => ""
               | some m => "<Message>" ++ m ++ "</Message>") ++
              "</Error>" }) ∧
    (∀ msg : Option String,
      (CreateBucketError.BucketAlreadyOwnedByYou msg).try_into_response =
        Except.ok
          { status := 409,
            headers := [("content-type", "text/xml")],
            body := xmlDecl ++ "<Error><Code>BucketAlreadyOwnedByYou</Code>" ++
              (match msg with
               | none => ""
               | some m => "<Message>" ++ m ++ "</Message>") ++
              "</Error>" }) ∧
    (∀ msg : Option String,
      (GetObjectError.NoSuchKey msg).try_into_response =
        Except.ok
          { status := 404,
            headers := [("content-type", "text/xml")],
            body := xmlDecl ++ "<Error><Code>NoSuchKey</Code>" ++
              (match msg with
               | none => ""
               | some m => "<Message>" ++ m ++ "</Message>") ++
              "</Error>" }) ∧
    (∀ msg : Option String,
      (HeadBucketError.NoSuchBucket msg).try_into_response =
        Except.ok
          { status := 404,
            headers := [("content-type", "text/xml")],
            body := xmlDecl ++ "<Error><Code>NoSuchBucket</Code>" ++
              (match msg with
               | none => ""
               | some m => "<Message>" ++ m ++ "</Message>") ++
              "</Error>" }) ∧
    (∀ msg : Option String,
      (HeadObjectError.NoSuchKey msg).try_into_response =
        Except.ok
          { status := 404,
            headers := [("content-type", "text/xml")],
            body := xmlDecl ++ "<Error><Code>NoSuchKey</Code>" ++
              (match msg with
               | none => ""
               | some m => "<Message>" ++ m ++ "</Message>") ++
              "</Error>" }) ∧
    (∀ msg : Option String,
      (ListObjectsError.NoSuchBucket msg).try_into_response =
        Except.ok
          { status := 404,
            headers := [("content-type", "text/xml")],
            body := xmlDecl ++ "<Error><Code>NoSuchBucket</Code>" ++
              (match msg with
               | none => ""
               | some m => "<Message>" ++ m ++ "</Message>") ++
              "</Error>" }) := by
  constructor
  · intro code message resource request_id
    simp only [XmlErrorResponse.try_into_response, wrap_xml_output_with_status,
      Except.ok.injEq, Response.mk.injEq, true_and, and_true]
    apply String.ext
    cases code <;> cases message <;> cases resource <;> cases request_id <;>
      simp [stack, element, opt_element, S3ErrorCode.toCodeString, xmlDecl,
        String.data_append, List.append_assoc]
  refine ⟨?_, ?_, ?_, ?_, ?_, ?_⟩ <;>
    · intro msg
      simp only [CreateBucketError.try_into_response,
        GetObjectError.try_into_response, HeadBucketError.try_into_response,
        HeadObjectError.try_into_response, ListObjectsError.try_into_response,
        XmlErrorResponse.from_code_msg, XmlErrorResponse.try_into_response,
        wrap_xml_output_with_status, Except.ok.injEq, Response.mk.injEq,
        S3ErrorCode.as_status_code, Option.getD, true_and, and_true]
      apply String.ext
      cases msg <;>
        simp [stack, element, opt_element, S3ErrorCode.toCodeString, xmlDecl,
          String.data_append, List.append_assoc]

/-- C3: the bodyless success outputs render with an empty body; the status
is 200 for delete-object, head-bucket and put-object, and 204 No Content
for delete-bucket. -/
theorem C3_bodyless_statuses :
    DeleteBucketOutput.try_into_response {} =
      Except.ok { status := 204, headers := [], body := "" } ∧
    DeleteObjectOutput.try_into_response {} =
      Except.ok { status := 200, headers := [], body := "" } ∧
    HeadBucketOutput.try_into_response {} =
      Except.ok { status := 200, headers := [], body := "" } ∧
    PutObjectOutput.try_into_response {} =
      Except.ok { status := 200, headers := [], body := "" } :=
  ⟨rfl, rfl, rfl, rfl⟩

/-- C4: a get-bucket-location output with no location constraint renders
with status 200 and an XML body whose `LocationConstraint` element is
emitted with empty text content, not omitted. -/
theorem C4_location_constraint_unset :
    GetBucketLocationOutput.try_into_response { location_constraint := none } =
      Except.ok
        { status := 200,
          headers := [("content-type", "text/xml")],
          body := "<?xml version=\x221.0\x22 encoding=\x22UTF-8\x22?><LocationConstraint></LocationConstraint>" } := by
  rfl

/-- C5: the list-buckets example output renders exactly two `Bucket`
blocks in order inside `Buckets` (the second omitting `CreationDate`) and
one `Owner` block with `ID` 42 and no `DisplayName`. -/
theorem C5_list_buckets_example :
    ListBucketsOutput.try_into_response
      { buckets := some
          [ { creation_date := some "2020-01-01T00:00:00Z", name := some "a" },
            { creation_date := none, name := some "b" } ],
        owner := some { display_name := none, id := some "42" } } =
      Except.ok
        { status := 200,
          headers := [("content-type", "text/xml")],
          body := "<?xml version=\x221.0\x22 encoding=\x22UTF-8\x22?><ListBucketsOutput><Buckets><Bucket><CreationDate>2020-01-01T00:00:00Z</CreationDate><Name>a</Name></Bucket><Bucket><Name>b</Name></Bucket></Buckets><Owner><ID>42</ID></Owner></ListBucketsOutput>" } := by
  rfl

/-- C7: the five operations whose business-error type has zero variants
(delete-bucket, delete-object, get-bucket-location, list-buckets,
put-object) have uninhabited error types, so their error-rendering branch
can never be invoked at runtime. -/
theorem C7_zero_variant_errors :
    IsEmpty DeleteBucketError ∧ IsEmpty DeleteObjectError ∧
    IsEmpty GetBucketLocationError ∧ IsEmpty ListBucketsError ∧
    IsEmpty PutObjectError :=
  ⟨⟨fun e => nomatch e⟩, ⟨fun e => nomatch e⟩, ⟨fun e => nomatch e⟩,
   ⟨fun e => nomatch e⟩, ⟨fun e => nomatch e⟩⟩

/-- C6: a failing builder always surfaces as the invalid-output transport
variant, and rendering any operation output either succeeds with only
legal header values on the response or fails with invalid-output — never
with any other error variant. -/
theorem C6_invalid_output_only :
    (∀ e : BoxStdError,
      wrap_output (Except.error e) = Except.error (S3Error.InvalidOutput e)) ∧
    (∀ o : CreateBucketOutput, rendersSafely o.try_into_response) ∧
    (∀ o : DeleteBucketOutput, rendersSafely o.try_into_response) ∧
    (∀ o : DeleteObjectOutput, rendersSafely o.try_into_response) ∧
    (∀ (conv : String → Except BoxStdError String) (o : GetObjectOutput),
      rendersSafely (GetObjectOutput.try_into_response conv o)) ∧
    (∀ o : GetBucketLocationOutput, rendersSafely o.try_into_response) ∧
    (∀ o : HeadBucketOutput, rendersSafely o.try_into_response) ∧
    (∀ (conv : String → Except BoxStdError String) (o : HeadObjectOutput),
      rendersSafely (HeadObjectOutput.try_into_response conv o)) ∧
    (∀ o : ListBucketsOutput, rendersSafely o.try_into_response) ∧
    (∀ o : ListObjectsOutput, rendersSafely o.try_into_response) ∧
    (∀ o : PutObjectOutput, rendersSafely o.try_into_response) := by
  refine ⟨fun e => rfl, fun o => ?_, fun o => rfl, fun o => rfl,
    fun conv o => ?_, fun o => (wrap_xml_output_safe _ 0).1, fun o => rfl,
    fun conv o => ?_, fun o => (wrap_xml_output_safe _ 0).1,
    fun o => (wrap_xml_output_safe _ 0).1, fun o => rfl⟩
  · apply wrap_output_safe
    exact okSafe_bind_resp _ _ (set_opt_header_okSafe _ _ _ rfl)
      fun r hr => hr
  · apply wrap_output_safe
    refine okSafe_bind_resp _ _ (set_opt_header_okSafe _ _ _ ?_) ?_
    · cases o.body <;> rfl
    intro r1 h1
    refine okSafe_bind_resp _ _ (set_opt_header_okSafe _ _ _ h1) ?_
    intro r2 h2
    refine okSafe_bind_any _ _ ?_
    intro lm
    exact okSafe_bind_resp _ _ (set_opt_header_okSafe _ _ _ h2)
      fun r3 h3 => h3
  · apply wrap_output_safe
    refine okSafe_bind_resp _ _ (set_opt_header_okSafe _ _ _ rfl) ?_
    intro r1 h1
    refine okSafe_bind_resp _ _ (set_opt_header_okSafe _ _ _ h1) ?_
    intro r2 h2
    refine okSafe_bind_any _ _ ?_
    intro lm
    refine okSafe_bind_resp _ _ (set_opt_header_okSafe _ _ _ h2) ?_
    intro r3 h3
    refine okSafe_bind_resp _ _ (set_opt_header_okSafe _ _ _ h3) ?_
    intro r4 h4
    exact okSafe_bind_resp _ _ (set_opt_header_okSafe _ _ _ h4)
      fun r5 h5 => h5

/-- C8: `assign_opt_header` on an absent header leaves the target
unchanged and reports the double success; on a present header whose text
fails to parse it reports the inner parse failure without mutating the
target; on a present parsable header it sets the target to the parsed
value; and on a header whose bytes cannot be read as text it reports the
outer failure. -/
theorem C8_assign_opt_header {T ε : Type} (parse : String → Except ε T)
    (req : Request) (name : String) (opt : Option T) :
    (req.headers.find? (fun p => p.1 == name) = none →
      req.assign_opt_header parse name opt =
        (Except.ok (Except.ok ()), opt)) ∧
    (∀ (p : String × HeaderValue) (s : String) (e : ε),
      req.headers.find? (fun p => p.1 == name) = some p →
      p.2.to_str = Except.ok s → parse s = Except.error e →
      req.assign_opt_header parse name opt =
        (Except.ok (Except.error e), opt)) ∧
    (∀ (p : String × HeaderValue) (s : String) (v : T),
      req.headers.find? (fun p => p.1 == name) = some p →
      p.2.to_str = Except.ok s → parse s = Except.ok v →
      req.assign_opt_header parse name opt =
        (Except.ok (Except.ok ()), some v)) ∧
    (∀ (p : String × HeaderValue) (e : ToStrError),
      req.headers.find? (fun p => p.1 == name) = some p →
      p.2.to_str = Except.error e →
      req.assign_opt_header parse name opt = (Except.error e, opt)) := by
  refine ⟨?_, ?_, ?_, ?_⟩
  · intro hfind
    simp [Request.assign_opt_header, Request.get_header_str, hfind]
  · intro p s e hfind hstr hparse
    simp [Request.assign_opt_header, Request.get_header_str, hfind, hstr,
      hparse]
  · intro p s v hfind hstr hparse
    simp [Request.assign_opt_header, Request.get_header_str, hfind, hstr,
      hparse]
  · intro p e hfind hstr
    simp [Request.assign_opt_header, Request.get_header_str, hfind, hstr]

/-- Witness for C8 at concrete requests: an absent header, a readable
header that parses, a readable header that fails to parse, and a header
whose bytes are not readable as text. -/
theorem C8_assign_opt_header_witness :
    (Request.assign_opt_header
        { headers := [("x-num", [53]), ("x-bad", [10]), ("x-raw", [55])] }
        (fun s => if s = "5" then Except.ok 5 else Except.error "bad")
        "missing" none = (Except.ok (Except.ok ()), none)) ∧
    (Request.assign_opt_header
        { headers := [("x-num", [53]), ("x-bad", [10]), ("x-raw", [55])] }
        (fun s => if s = "5" then Except.ok 5 else Except.error "bad")
        "x-raw" none = (Except.ok (Except.error "bad"), none)) ∧
    (Request.assign_opt_header
        { headers := [("x-num", [53]), ("x-bad", [10]), ("x-raw", [55])] }
        (fun s => if s = "5" then Except.ok 5 else Except.error "bad")
        "x-num" none = (Except.ok (Except.ok ()), some 5)) ∧
    (Request.assign_opt_header
        { headers := [("x-num", [53]), ("x-bad", [10]), ("x-raw", [55])] }
        (fun s => if s = "5" then Except.ok 5 else Except.error "bad")
        "x-bad" none = (Except.error {}, none)) :=
  ⟨(C8_assign_opt_header _ _ _ _).1 (by decide),
   (C8_assign_opt_header _ _ _ _).2.1 ("x-raw", [55]) "7" "bad"
     (by decide) (by decide) (by decide),
   (C8_assign_opt_header _ _ _ _).2.2.1 ("x-num", [53]) "5" 5
     (by decide) (by decide) (by decide),
   (C8_assign_opt_header _ _ _ _).2.2.2 ("x-bad", [10]) {}
     (by decide) (by decide)⟩

/-- C9: every XML-bodied render — error documents, list-buckets,
list-objects and get-bucket-location — succeeds with a body beginning
with the one standard XML declaration and carries the `text/xml` content
type. -/
theorem C9_xml_uniformity :
    (∀ resp : XmlErrorResponse,
      isXmlResponse resp.try_into_response = true) ∧
    (∀ o : ListBucketsOutput, isXmlResponse o.try_into_response = true) ∧
    (∀ o : ListObjectsOutput, isXmlResponse o.try_into_response = true) ∧
    (∀ o : GetBucketLocationOutput,
      isXmlResponse o.try_into_response = true) :=
  ⟨fun _resp => (isXmlResponse_wrap _ _).2,
   fun _o => (isXmlResponse_wrap _ 0).1,
   fun _o => (isXmlResponse_wrap _ 0).1,
   fun _o => (isXmlResponse_wrap _ 0).1⟩

/-- C10: `from_code_msg` always sets `resource` and `request_id` to
`None`; rendering such a document yields a body whose `Error` element
contains only `Code` and, when a message was supplied, `Message`; and
every per-operation business-error renderer builds its document through
`from_code_msg`. -/
theorem C10_resource_request_id_omitted :
    (∀ (code : S3ErrorCode) (msg : Option String),
      (XmlErrorResponse.from_code_msg code msg).resource = none ∧
      (XmlErrorResponse.from_code_msg code msg).request_id = none) ∧
    (∀ (code : S3ErrorCode) (msg : Option String),
      (XmlErrorResponse.from_code_msg code msg).try_into_response =
        Except.ok
          { status := (code.as_status_code).getD 500,
            headers := [("content-type", "text/xml")],
            body := xmlDecl ++ "<Error>" ++
              "<Code>" ++ code.toCodeString ++ "</Code>" ++
              (match msg with
               | none => ""
               | some m => "<Message>" ++ m ++ "</Message>") ++
              "</Error>" }) ∧
    (∀ msg,
      (CreateBucketError.BucketAlreadyExists msg).try_into_response =
        (XmlErrorResponse.from_code_msg S3ErrorCode.BucketAlreadyExists
            msg).try_into_response) ∧
    (∀ msg,
      (CreateBucketError.BucketAlreadyOwnedByYou msg).try_into_response =
        (XmlErrorResponse.from_code_msg S3ErrorCode.BucketAlreadyOwnedByYou
            msg).try_into_response) ∧
    (∀ msg,
      (GetObjectError.NoSuchKey msg).try_into_response =
        (XmlErrorResponse.from_code_msg S3ErrorCode.NoSuchKey
            msg).try_into_response) ∧
    (∀ msg,
      (HeadBucketError.NoSuchBucket msg).try_into_response =
        (XmlErrorResponse.from_code_msg S3ErrorCode.NoSuchBucket
            msg).try_into_response) ∧
    (∀ msg,
      (HeadObjectError.NoSuchKey msg).try_into_response =
        (XmlErrorResponse.from_code_msg S3ErrorCode.NoSuchKey
            msg).try_into_response) ∧
    (∀ msg,
      (ListObjectsError.NoSuchBucket msg).try_into_response =
        (XmlErrorResponse.from_code_msg S3ErrorCode.NoSuchBucket
            msg).try_into_response) := by
  refine ⟨fun code msg => ⟨rfl, rfl⟩, ?_, fun msg => rfl, fun msg => rfl,
    fun msg => rfl, fun msg => rfl, fun msg => rfl, fun msg => rfl⟩
  intro code msg
  simp only [XmlErrorResponse.from_code_msg,
    XmlErrorResponse.try_into_response, wrap_xml_output_with_status,
    Except.ok.injEq, Response.mk.injEq, true_and, and_true]
  apply String.ext
  cases code <;> cases msg <;>
    simp [stack, element, opt_element, S3ErrorCode.toCodeString, xmlDecl,
      String.data_append, List.append_assoc]

end S3
